import Mathlib

/-!
Verification development for the mcp-pypi hybrid cache engine.

The definitions below are a shallow embedding of the Python classes
`Cache` (disk tier) and `HybridCache` (memory tier over disk tier) from
`examples/standalone_cache_benchmark.py`, and of
`CacheManager._prune_cache_if_needed` from `pypi_tools.py`.

Modelling conventions:
- Python `time.time()` is an explicit `now : Nat` argument; all
  `time.time()` reads inside one operation happen at the same instant.
- Python values (`Any`, possibly `None`) are the inductive `PyObj`,
  whose constructor `PyObj.none` models Python `None`.
- A dict / OrderedDict is an association list in insertion order; a
  Python dict assignment keeps the position of an existing key (modelled
  by `setAssoc`), `pop` removes it, and a fresh assignment appends.
- The on-disk cache directory of the two-tier model is an association
  list from keys to `DiskFile`; `DiskFile.corrupt` models a file whose
  open or `json.load` raises one of the exceptions the code catches
  (`json.JSONDecodeError` or `OSError`). `Cache.get` does NOT catch
  every failure of a bad file: a file with invalid UTF-8 bytes raises
  `UnicodeDecodeError` during `json.load`, and a file holding valid
  JSON that is not an object raises `AttributeError` at
  `cache_data.get(...)`; neither is caught, so both propagate to the
  caller. The full per-file state space including those raising states
  is `FileState` with the outcome function `Cache.get_outcome`; the
  two-tier model is the restriction of `Cache.get` to the non-raising
  states (theorem `cache_get_outcome_agrees`).
- Fallible disk writes take an explicit fault-injection flag `ok : Bool`
  standing for whether the write raises `OSError`.
-/

/-- Python value as stored in the cache; `PyObj.none` models Python `None`. -/
inductive PyObj where
  | none
  | nat (n : Nat)
  | str (s : String)
deriving DecidableEq, Repr

/-- Eviction strategies of the hybrid cache (class `EvictionStrategy`). -/
inductive EvictionStrategy where
  | LRU
  | LFU
  | TTL
deriving DecidableEq, Repr

/-- One file of the disk tier, restricted to the states on which
`Cache.get` does not raise: a well-formed serialized entry
`{value, expires_at, created_at}`, or a file whose open/`json.load`
raises a CAUGHT exception (`json.JSONDecodeError` or `OSError`:
corrupt or partially written JSON text, unreadable file). The full
per-file state space, including the states on which `Cache.get` raises
to the caller, is `FileState` below. -/
inductive DiskFile where
  | good (value : PyObj) (expires_at : Nat) (created_at : Nat)
  | corrupt
deriving DecidableEq, Repr

/-- A memory-tier cache entry, as built by `_add_to_memory_cache`. -/
structure CacheEntry where
  key : String
  value : PyObj
  expires_at : Nat
  created_at : Nat
  last_access : Nat
deriving DecidableEq, Repr

/-- The metrics dictionary of a `HybridCache` instance. -/
structure Metrics where
  memory_hits : Nat
  memory_misses : Nat
  disk_hits : Nat
  disk_misses : Nat
  sets : Nat
  invalidations : Nat
deriving DecidableEq, Repr

/-- Lookup in an association list (Python `d[k]` / `k in d`). -/
def lookupA {α : Type} (l : List (String × α)) (k : String) : Option α :=
  (l.find? (fun p => p.1 == k)).map (fun p => p.2)

/-- Removal from an association list (Python `d.pop(k, None)`). -/
def eraseA {α : Type} (l : List (String × α)) (k : String) : List (String × α) :=
  l.filter (fun p => p.1 != k)

/-- Assignment `d[k] = v` on a Python dict: an existing key keeps its
position in insertion order, a new key is appended at the end. -/
def setAssoc {α : Type} (l : List (String × α)) (k : String) (v : α) : List (String × α) :=
  if l.any (fun p => p.1 == k) then
    l.map (fun p => if p.1 == k then (k, v) else p)
  else
    l ++ [(k, v)]

/-- Disk-tier read, `Cache.get`: absent file or corrupt file gives `None`;
an expired entry is deleted (lazy expiry) and gives `None`; otherwise the
stored value is returned. Returns the value and the new directory state. -/
def Cache.get (now : Nat) (disk : List (String × DiskFile)) (key : String) :
    PyObj × List (String × DiskFile) :=
  match lookupA disk key with
  | Option.none => (PyObj.none, disk)
  | some DiskFile.corrupt => (PyObj.none, disk)
  | some (DiskFile.good v e _) =>
      if e < now then (PyObj.none, eraseA disk key) else (v, disk)

/-- Disk-tier write, `Cache.set`: on success the serialized entry
`{value, expires_at := now + ttl, created_at := now}` atomically replaces
the target file and `True` is returned; a raised `OSError` (fault flag
`ok = false`) leaves the directory unchanged and returns `False`. -/
def Cache.set (now : Nat) (disk : List (String × DiskFile)) (key : String)
    (v : PyObj) (ttl : Nat) (ok : Bool) : List (String × DiskFile) × Bool :=
  if ok then (setAssoc disk key (DiskFile.good v (now + ttl) now), true)
  else (disk, false)

/-- Python exceptions that `Cache.get` lets escape to its caller. -/
inductive PyExn where
  | unicodeDecodeError
  | attributeError
deriving DecidableEq, Repr

/-- Full state space of one on-disk entry file, as observed by the body
of `Cache.get`:
- `missing`: no file at the path;
- `unreadable`: `open`/read raises `OSError` (caught);
- `badJson`: text that fails `json.load` with `json.JSONDecodeError`
  (corrupt or partially written JSON, caught);
- `badUtf8`: bytes that are not valid UTF-8 — `json.load` raises
  `UnicodeDecodeError`, which is a `ValueError` but NOT a
  `json.JSONDecodeError`, so it is NOT caught;
- `jsonNonDict`: valid JSON that is not an object — `json.load`
  succeeds and `cache_data.get("expires_at", 0)` raises
  `AttributeError`, which is NOT caught;
- `jsonDict value expires_at created_at`: a well-formed entry. -/
inductive FileState where
  | missing
  | unreadable
  | badJson
  | badUtf8
  | jsonNonDict
  | jsonDict (value : PyObj) (expires_at : Nat) (created_at : Nat)
deriving DecidableEq, Repr

/-- Observable outcome of one `Cache.get` call: a returned value
(Python `None` for a miss) or an uncaught exception. -/
inductive ReadOutcome where
  | returns (v : PyObj)
  | raised (e : PyExn)
deriving DecidableEq, Repr

/-- The body of `Cache.get` on one file, over the full file-state
space: missing files and files whose failure is caught by
`except (json.JSONDecodeError, OSError)` return `None`; invalid UTF-8
raises `UnicodeDecodeError` and valid-JSON non-dict raises
`AttributeError`, both escaping to the caller; a well-formed entry is
subject to the lazy-expiry check. -/
def Cache.get_outcome (now : Nat) (f : FileState) : ReadOutcome :=
  match f with
  | FileState.missing => ReadOutcome.returns PyObj.none
  | FileState.unreadable => ReadOutcome.returns PyObj.none
  | FileState.badJson => ReadOutcome.returns PyObj.none
  | FileState.badUtf8 => ReadOutcome.raised PyExn.unicodeDecodeError
  | FileState.jsonNonDict => ReadOutcome.raised PyExn.attributeError
  | FileState.jsonDict v e _ =>
      if e < now then ReadOutcome.returns PyObj.none else ReadOutcome.returns v

/-- Embedding of the coarse two-tier file states into the full space
(`DiskFile.corrupt` stands for the caught failures; `badJson` is the
chosen representative, `unreadable` behaves identically). -/
def DiskFile.toFileState : Option DiskFile → FileState
  | Option.none => FileState.missing
  | some DiskFile.corrupt => FileState.badJson
  | some (DiskFile.good v e c) => FileState.jsonDict v e c

/-- State of a `HybridCache` instance. -/
structure HybridCache where
  ttl : Nat
  memory_max_size : Nat
  eviction_strategy : EvictionStrategy
  memory_cache : List (String × CacheEntry)
  access_counts : List (String × Nat)
  metrics : Metrics
  disk : List (String × DiskFile)
deriving DecidableEq, Repr

/-- A fresh `HybridCache` instance (the `__init__` method). -/
def HybridCache.mk0 (ttl memory_max_size : Nat) (strat : EvictionStrategy) : HybridCache :=
  { ttl := ttl, memory_max_size := memory_max_size, eviction_strategy := strat,
    memory_cache := [], access_counts := [],
    metrics := ⟨0, 0, 0, 0, 0, 0⟩, disk := [] }

/-- The LFU scan of `_evict_from_memory_cache`: first key in
`_access_counts` iteration order whose count is strictly below the
running minimum and which is present in the memory cache. -/
def lfuPick (counts : List (String × Nat)) (mem : List (String × CacheEntry)) :
    Option String :=
  (counts.foldl
    (fun acc p =>
      match acc with
      | Option.none => if (lookupA mem p.1).isSome then some p else Option.none
      | some m => if p.2 < m.2 && (lookupA mem p.1).isSome then some p else some m)
    Option.none).map (fun p => p.1)

/-- The TTL scan of `_evict_from_memory_cache`: first key in memory
iteration order whose remaining time-to-expiry is positive and strictly
below the running minimum. -/
def ttlPick (mem : List (String × CacheEntry)) (now : Nat) : Option String :=
  (mem.foldl
    (fun acc p =>
      let tl := p.2.expires_at - now
      match acc with
      | Option.none => if 0 < tl then some (p.1, tl) else Option.none
      | some m => if 0 < tl && tl < m.2 then some (p.1, tl) else some m)
    Option.none).map (fun p => p.1)

/-- Core of `_evict_from_memory_cache` on the memory table and the LFU
counters. `popitem(last=False)` is `List.tail`; the Python truthiness
guards `if min_key:` and `if closest_to_expire:` are false both for
`None` and for the empty-string key. -/
def evictMC (strat : EvictionStrategy) (mem : List (String × CacheEntry))
    (counts : List (String × Nat)) (now : Nat) :
    List (String × CacheEntry) × List (String × Nat) :=
  if mem.isEmpty then (mem, counts)
  else
    match strat with
    | EvictionStrategy.LRU => (mem.tail, counts)
    | EvictionStrategy.LFU =>
        match lfuPick counts mem with
        | some k =>
            if k = "" then (mem, counts)
            else (eraseA mem k, eraseA counts k)
        | Option.none => (mem, counts)
    | EvictionStrategy.TTL =>
        match ttlPick mem now with
        | some k =>
            if k = "" then (mem.tail, counts)
            else (eraseA mem k, eraseA counts k)
        | Option.none => (mem.tail, counts)

/-- Method `_evict_from_memory_cache` of `HybridCache`. -/
def HybridCache.evict_from_memory_cache (st : HybridCache) (now : Nat) : HybridCache :=
  let r := evictMC st.eviction_strategy st.memory_cache st.access_counts now
  { st with memory_cache := r.1, access_counts := r.2 }

/-- The cache entry built by `_add_to_memory_cache`. -/
def mkEntry (key : String) (v : PyObj) (t now : Nat) : CacheEntry :=
  { key := key, value := v, expires_at := now + t, created_at := now,
    last_access := now }

/-- Core of `_add_to_memory_cache` on the memory table and the LFU
counters: pop an existing key, append the fresh entry at the end, reset
its access count to 1, then evict once if the table exceeds the bound. -/
def addMC (ttlD maxSz : Nat) (strat : EvictionStrategy)
    (mem : List (String × CacheEntry)) (counts : List (String × Nat))
    (key : String) (v : PyObj) (ttl : Option Nat) (now : Nat) :
    List (String × CacheEntry) × List (String × Nat) :=
  let t := ttl.getD ttlD
  let mem2 := eraseA mem key ++ [(key, mkEntry key v t now)]
  let counts2 := setAssoc counts key 1
  if maxSz < mem2.length then evictMC strat mem2 counts2 now else (mem2, counts2)

/-- Method `_add_to_memory_cache` of `HybridCache`. -/
def HybridCache.add_to_memory_cache (st : HybridCache) (key : String) (v : PyObj)
    (ttl : Option Nat) (now : Nat) : HybridCache :=
  let r := addMC st.ttl st.memory_max_size st.eviction_strategy st.memory_cache
    st.access_counts key v ttl now
  { st with memory_cache := r.1, access_counts := r.2 }

/-- Method `_update_access_metrics` of `HybridCache`: refresh
`last_access` in place, bump the access count, and under LRU move the
key to the most-recently-used end of the ordered table. -/
def HybridCache.update_access_metrics (st : HybridCache) (key : String) (now : Nat) :
    HybridCache :=
  match lookupA st.memory_cache key with
  | Option.none => st
  | some e0 =>
      let e := { e0 with last_access := now }
      let mem := st.memory_cache.map (fun p => if p.1 == key then (key, e) else p)
      let counts := setAssoc st.access_counts key
        ((lookupA st.access_counts key).getD 0 + 1)
      let mem2 :=
        if st.eviction_strategy = EvictionStrategy.LRU then
          eraseA mem key ++ [(key, e)]
        else mem
      { st with memory_cache := mem2, access_counts := counts }

/-- Lines 194-207 of `HybridCache.get`: the disk-fallback tail executed
on a memory miss (also reached after an expired memory entry is popped).
It counts one memory miss, reads the disk tier, and on a non-`None`
result counts a disk hit and promotes the value into memory. -/
def HybridCache.disk_fallback (st : HybridCache) (key : String) (now : Nat) :
    HybridCache × PyObj :=
  let st2 := { st with metrics :=
    { st.metrics with memory_misses := st.metrics.memory_misses + 1 } }
  let r := Cache.get now st2.disk key
  let st3 := { st2 with disk := r.2 }
  if r.1 = PyObj.none then
    ({ st3 with metrics :=
        { st3.metrics with disk_misses := st3.metrics.disk_misses + 1 } },
     PyObj.none)
  else
    let st4 := { st3 with metrics :=
      { st3.metrics with disk_hits := st3.metrics.disk_hits + 1 } }
    (st4.add_to_memory_cache key r.1 Option.none now, r.1)

/-- Method `HybridCache.get`: a fresh memory entry is a hit with
metadata mutation; an expired memory entry is popped from both tables
and counted as a miss before falling through to the disk tier. -/
def HybridCache.get (st : HybridCache) (key : String) (now : Nat) :
    HybridCache × PyObj :=
  match lookupA st.memory_cache key with
  | some e =>
      if e.expires_at < now then
        let st2 := { st with
          memory_cache := eraseA st.memory_cache key,
          access_counts := eraseA st.access_counts key,
          metrics := { st.metrics with
            memory_misses := st.metrics.memory_misses + 1 } }
        st2.disk_fallback key now
      else
        let st2 := st.update_access_metrics key now
        ({ st2 with metrics :=
            { st2.metrics with memory_hits := st2.metrics.memory_hits + 1 } },
         e.value)
  | Option.none => st.disk_fallback key now

/-- Method `HybridCache.set`: count the set, insert into the memory tier
(with at most one eviction), then write through to the disk tier and
return the disk write's own result. -/
def HybridCache.set (st : HybridCache) (key : String) (v : PyObj)
    (ttl : Option Nat) (now : Nat) (diskOk : Bool) : HybridCache × Bool :=
  let st2 := { st with metrics := { st.metrics with sets := st.metrics.sets + 1 } }
  let st3 := st2.add_to_memory_cache key v ttl now
  let r := Cache.set now st3.disk key v (ttl.getD st3.ttl) diskOk
  ({ st3 with disk := r.1 }, r.2)

/-- One file of the `CacheManager` cache directory in `pypi_tools.py`:
name, last-access time (`st_atime`) and size (`st_size`). -/
structure CacheFile where
  name : String
  atime : Nat
  size : Nat
deriving DecidableEq, Repr

/-- Insertion step of an ascending sort by `st_atime`. -/
def insertByAtime (f : CacheFile) : List CacheFile → List CacheFile
  | [] => [f]
  | g :: gs => if f.atime < g.atime then f :: g :: gs else g :: insertByAtime f gs

/-- The `sorted(files, key=lambda f: f.stat().st_atime)` call of
`_prune_cache_if_needed`. -/
def sortByAtime (fs : List CacheFile) : List CacheFile :=
  fs.foldr insertByAtime []

/-- Result of `f.stat().st_size`: `Option.none` models the
`FileNotFoundError` raised when the path no longer exists. -/
def statSizeF (fs : List CacheFile) (n : String) : Option Nat :=
  (fs.find? (fun f => f.name == n)).map (fun f => f.size)

/-- Effect of `file.unlink()` on the directory. -/
def unlinkF (fs : List CacheFile) (n : String) : List CacheFile :=
  fs.filter (fun f => f.name != n)

/-- The deletion loop of `_prune_cache_if_needed`, faithful to its
statement order: `file.unlink()` first, then `file.stat().st_size` on
the just-deleted path. The raised exception propagates to the method's
outer handler, which swallows it, ending the prune. The comparison
`cache_size < max_size * 0.8` is rendered exactly as `10 * size < 8 * max`. -/
def pruneLoop (maxSize : Nat) : List CacheFile → List String → Nat → List CacheFile
  | fs, [], _ => fs
  | fs, n :: rest, size =>
      let fs2 := unlinkF fs n
      match statSizeF fs2 n with
      | Option.none => fs2
      | some s =>
          let size2 := size - s
          if size2 * 10 < maxSize * 8 then fs2 else pruneLoop maxSize fs2 rest size2

/-- Method `CacheManager._prune_cache_if_needed` of `pypi_tools.py`. -/
def prune_cache_if_needed (maxSize : Nat) (fs : List CacheFile) : List CacheFile :=
  let total := (fs.map (fun f => f.size)).sum
  if maxSize < total then
    pruneLoop maxSize fs ((sortByAtime fs).map (fun f => f.name)) total
  else fs

/-- Sample instance: LRU cache at capacity holding key `a`, whose disk
tier also holds `a` (as after `set("a", 7)` with capacity 1). -/
def sampleLRU : HybridCache :=
  { ttl := 100, memory_max_size := 1, eviction_strategy := EvictionStrategy.LRU,
    memory_cache := [("a", mkEntry "a" (PyObj.nat 7) 50 0)],
    access_counts := [("a", 1)], metrics := ⟨0, 0, 0, 0, 0, 0⟩,
    disk := [("a", DiskFile.good (PyObj.nat 7) 50 0)] }

/-- Sample instance: LFU cache at capacity whose single resident key
has a high access count, so the next insertion's eviction scan picks
the just-inserted key itself. -/
def sampleLFUFull : HybridCache :=
  { ttl := 100, memory_max_size := 1, eviction_strategy := EvictionStrategy.LFU,
    memory_cache := [("x", mkEntry "x" (PyObj.nat 1) 100 0)],
    access_counts := [("x", 5)], metrics := ⟨0, 0, 0, 0, 0, 0⟩, disk := [] }

/-- Sample instance: a memory entry for `k` that expired at time 1. -/
def sampleExpired : HybridCache :=
  { ttl := 100, memory_max_size := 4, eviction_strategy := EvictionStrategy.LRU,
    memory_cache := [("k", mkEntry "k" (PyObj.nat 7) 1 0)],
    access_counts := [("k", 1)], metrics := ⟨0, 0, 0, 0, 0, 0⟩, disk := [] }

/-- Sample instance: empty memory tier over a disk entry whose stored
value is Python `None`. -/
def sampleDiskNone : HybridCache :=
  { ttl := 100, memory_max_size := 4, eviction_strategy := EvictionStrategy.LRU,
    memory_cache := [], access_counts := [], metrics := ⟨0, 0, 0, 0, 0, 0⟩,
    disk := [("k", DiskFile.good PyObj.none 50 0)] }

/-- Sample instance: a fresh memory entry for `k` whose stored value is
Python `None`. -/
def sampleMemNone : HybridCache :=
  { ttl := 100, memory_max_size := 4, eviction_strategy := EvictionStrategy.LRU,
    memory_cache := [("k", mkEntry "k" PyObj.none 50 0)],
    access_counts := [("k", 1)], metrics := ⟨0, 0, 0, 0, 0, 0⟩, disk := [] }

/-! Helper lemmas about the association-list operations. -/

/-- A successful lookup yields a pair of the list. -/
theorem lookupA_mem {α : Type} {l : List (String × α)} {k : String} {v : α}
    (h : lookupA l k = some v) : (k, v) ∈ l := by
  unfold lookupA at h
  cases hf : l.find? (fun p => p.1 == k) with
  | none => rw [hf] at h; simp at h
  | some p =>
      rw [hf] at h
      have hp := List.find?_some hf
      have hm := List.mem_of_find?_eq_some hf
      obtain ⟨p1, p2⟩ := p
      have h1 : p1 = k := by simpa using hp
      have h2 : p2 = v := by simpa using h
      subst h1; subst h2; exact hm

/-- Looking up the erased key fails. -/
theorem lookupA_eraseA_self {α : Type} (l : List (String × α)) (k : String) :
    lookupA (eraseA l k) k = Option.none := by
  unfold lookupA eraseA
  rw [List.find?_eq_none.mpr]
  · rfl
  · intro p hp
    have h2 := (List.mem_filter.mp hp).2
    simp only [bne_iff_ne, ne_eq] at h2
    simp [h2]

/-- A pair with the erased key cannot come from the erased part of an
erase-then-append update, so it is the appended entry. -/
theorem pair_mem_erase_append {α : Type} {l : List (String × α)} {k : String}
    {e e0 : α} (h : (k, e) ∈ eraseA l k ++ [(k, e0)]) : e = e0 := by
  rcases List.mem_append.mp h with h1 | h1
  · exfalso
    have h2 := (List.mem_filter.mp h1).2
    simp at h2
  · simpa using h1

/-- Lookup after an erase-then-append update finds the appended entry. -/
theorem lookupA_erase_append {α : Type} (l : List (String × α)) (k : String) (e : α) :
    lookupA (eraseA l k ++ [(k, e)]) k = some e := by
  induction l with
  | nil => simp [lookupA, eraseA, List.find?]
  | cons a l ih =>
      by_cases ha : a.1 = k
      · simp only [eraseA, List.filter] at ih ⊢
        simp [ha, ← ih]
      · have hb : (a.1 != k) = true := bne_iff_ne.mpr ha
        have hb2 : (a.1 == k) = false := by
          simpa [bne] using hb
        simp only [lookupA, eraseA, List.filter] at ih ⊢
        simp [hb, List.find?, hb2, ← ih]

/-- Auxiliary for `lookupA_setAssoc_self`: a dict-style in-place update
is found by a subsequent lookup when the key was present. -/
theorem find_map_update {α : Type} (l : List (String × α)) (k : String) (v : α)
    (h : l.any (fun p => p.1 == k) = true) :
    List.find? (fun p => p.1 == k)
      (l.map (fun p => if p.1 == k then (k, v) else p)) = some (k, v) := by
  induction l with
  | nil => simp at h
  | cons a l ih =>
      by_cases ha : a.1 = k
      · simp [List.find?, ha]
      · have hb : (a.1 == k) = false := by
          simpa using ha
        have h2 : l.any (fun p => p.1 == k) = true := by
          simpa [List.any_cons, hb] using h
        simpa [List.find?, hb] using ih h2

/-- Auxiliary for `lookupA_setAssoc_self`: when the key was absent, the
appended entry is found. -/
theorem find_append_single {α : Type} (l : List (String × α)) (k : String) (v : α)
    (h : l.any (fun p => p.1 == k) = false) :
    List.find? (fun p => p.1 == k) (l ++ [(k, v)]) = some (k, v) := by
  induction l with
  | nil => simp [List.find?]
  | cons a l ih =>
      have hb : (a.1 == k) = false := by
        rcases List.any_eq_false.mp h a (by simp) with h3
        simpa using h3
      have h2 : l.any (fun p => p.1 == k) = false := by
        rw [List.any_cons, hb] at h
        simpa using h
      simpa [List.find?, hb] using ih h2

/-- Lookup after a dict assignment finds the assigned value. -/
theorem lookupA_setAssoc_self {α : Type} (l : List (String × α)) (k : String) (v : α) :
    lookupA (setAssoc l k v) k = some v := by
  unfold lookupA setAssoc
  by_cases h : l.any (fun p => p.1 == k) = true
  · rw [if_pos h, find_map_update l k v h]; rfl
  · rw [if_neg h, find_append_single l k v (by
      simp only [Bool.not_eq_true] at h; exact h)]
    rfl

/-- Eviction only removes memory entries: its resulting table is
pointwise contained in the input table. -/
theorem evictMC_mem_subset {strat : EvictionStrategy}
    {mem : List (String × CacheEntry)} {counts : List (String × Nat)} {now : Nat}
    {p : String × CacheEntry} (h : p ∈ (evictMC strat mem counts now).1) : p ∈ mem := by
  unfold evictMC at h
  split at h
  · exact h
  · split at h
    · exact (List.tail_sublist mem).mem h
    · split at h
      · split at h
        · exact h
        · exact List.mem_of_mem_filter h
      · exact h
    · split at h
      · split at h
        · exact (List.tail_sublist mem).mem h
        · exact List.mem_of_mem_filter h
      · exact (List.tail_sublist mem).mem h

/-- Under LRU, eviction drops exactly the head of the ordered memory
table and touches nothing else. -/
theorem evictMC_lru (mem : List (String × CacheEntry)) (counts : List (String × Nat))
    (now : Nat) : evictMC EvictionStrategy.LRU mem counts now = (mem.tail, counts) := by
  by_cases h : mem.isEmpty = true
  · have h0 : mem = [] := List.isEmpty_iff.mp h
    simp [evictMC, h, h0]
  · simp [evictMC, h]

/-- Under LFU, when the scan picks a non-empty-string victim, eviction
removes that key from both the memory table and the LFU counters. -/
theorem evictMC_lfu_pick {counts : List (String × Nat)}
    {mem : List (String × CacheEntry)} {k : String} (now : Nat)
    (h1 : lfuPick counts mem = some k) (h2 : k ≠ "") (h3 : mem ≠ []) :
    evictMC EvictionStrategy.LFU mem counts now = (eraseA mem k, eraseA counts k) := by
  have he : ¬ mem.isEmpty = true := by
    simpa [List.isEmpty_iff] using h3
  simp [evictMC, he, h1, h2]

/-- Under LFU, a scan result of `None` or of the empty-string key makes
the eviction remove nothing (the `if min_key:` truthiness guard). -/
theorem evictMC_lfu_skip {counts : List (String × Nat)}
    {mem : List (String × CacheEntry)} (now : Nat)
    (h1 : lfuPick counts mem = some "" ∨ lfuPick counts mem = Option.none) :
    evictMC EvictionStrategy.LFU mem counts now = (mem, counts) := by
  by_cases h : mem.isEmpty = true
  · simp [evictMC, h]
  · rcases h1 with h1 | h1 <;> simp [evictMC, h, h1]

/-- Under TTL, when the scan finds a non-empty-string victim with
positive remaining TTL, eviction removes it from both tables. -/
theorem evictMC_ttl_pick {mem : List (String × CacheEntry)}
    {counts : List (String × Nat)} {k : String} {now : Nat}
    (h1 : ttlPick mem now = some k) (h2 : k ≠ "") (h3 : mem ≠ []) :
    evictMC EvictionStrategy.TTL mem counts now = (eraseA mem k, eraseA counts k) := by
  have he : ¬ mem.isEmpty = true := by
    simpa [List.isEmpty_iff] using h3
  simp [evictMC, he, h1, h2]

/-- Under TTL, when the scan finds no victim (or the empty-string key),
eviction falls back to the LRU pop: the head of the memory table is
removed and the LFU counters are untouched. -/
theorem evictMC_ttl_fallback {mem : List (String × CacheEntry)}
    {counts : List (String × Nat)} {now : Nat}
    (h1 : ttlPick mem now = Option.none ∨ ttlPick mem now = some "") :
    evictMC EvictionStrategy.TTL mem counts now = (mem.tail, counts) := by
  by_cases h : mem.isEmpty = true
  · have h0 : mem = [] := List.isEmpty_iff.mp h
    simp [evictMC, h, h0]
  · rcases h1 with h1 | h1 <;> simp [evictMC, h, h1]

/-- The coarse two-tier read `Cache.get` agrees with the full per-file
outcome model on the corresponding (non-raising) file states. -/
theorem cache_get_outcome_agrees (now : Nat) (disk : List (String × DiskFile))
    (key : String) :
    Cache.get_outcome now (DiskFile.toFileState (lookupA disk key)) =
      ReadOutcome.returns (Cache.get now disk key).1 := by
  cases h : lookupA disk key with
  | none => simp [Cache.get_outcome, DiskFile.toFileState, Cache.get, h]
  | some f =>
      cases f with
      | corrupt => simp [Cache.get_outcome, DiskFile.toFileState, Cache.get, h]
      | good v e c =>
          by_cases he : e < now <;>
            simp [Cache.get_outcome, DiskFile.toFileState, Cache.get, h, he]

/-- Any entry found under the inserted key after `_add_to_memory_cache`
is the freshly built entry. -/
theorem addMC_lookup {ttlD maxSz : Nat} {strat : EvictionStrategy}
    {mem : List (String × CacheEntry)} {counts : List (String × Nat)}
    {key : String} {v : PyObj} {ttl : Option Nat} {now : Nat} {e : CacheEntry}
    (h : lookupA (addMC ttlD maxSz strat mem counts key v ttl now).1 key = some e) :
    e = mkEntry key v (ttl.getD ttlD) now := by
  simp only [addMC] at h
  split at h
  · exact pair_mem_erase_append (evictMC_mem_subset (lookupA_mem h))
  · rw [lookupA_erase_append] at h
    exact (Option.some.injEq _ _).mp h.symm

/-! Equation lemmas for the read paths. -/

/-- Disk read of an absent file. -/
theorem cget_absent {disk : List (String × DiskFile)} {key : String} (now : Nat)
    (h : lookupA disk key = Option.none) : Cache.get now disk key = (PyObj.none, disk) := by
  unfold Cache.get; rw [h]

/-- Disk read of a corrupt, partial or unreadable file. -/
theorem cget_corrupt {disk : List (String × DiskFile)} {key : String} (now : Nat)
    (h : lookupA disk key = some DiskFile.corrupt) :
    Cache.get now disk key = (PyObj.none, disk) := by
  unfold Cache.get; rw [h]

/-- Disk read of a fresh entry. -/
theorem cget_fresh {disk : List (String × DiskFile)} {key : String}
    {v : PyObj} {e c now : Nat} (h : lookupA disk key = some (DiskFile.good v e c))
    (hne : ¬ e < now) : Cache.get now disk key = (v, disk) := by
  unfold Cache.get; rw [h]; simp [hne]

/-- Disk read of an expired entry deletes the file. -/
theorem cget_expired {disk : List (String × DiskFile)} {key : String}
    {v : PyObj} {e c now : Nat} (h : lookupA disk key = some (DiskFile.good v e c))
    (he : e < now) : Cache.get now disk key = (PyObj.none, eraseA disk key) := by
  unfold Cache.get; rw [h]; simp [he]

/-- The disk fallback returns exactly what the disk tier returned (a
`None` disk result is passed through as `None`). -/
theorem df_val (st : HybridCache) (key : String) (now : Nat) :
    (HybridCache.disk_fallback st key now).2 = (Cache.get now st.disk key).1 := by
  unfold HybridCache.disk_fallback
  by_cases hr : (Cache.get now st.disk key).1 = PyObj.none <;> simp [hr]

/-- The disk fallback leaves the directory exactly as the disk read left it. -/
theorem df_disk (st : HybridCache) (key : String) (now : Nat) :
    (HybridCache.disk_fallback st key now).1.disk = (Cache.get now st.disk key).2 := by
  unfold HybridCache.disk_fallback
  by_cases hr : (Cache.get now st.disk key).1 = PyObj.none <;>
    simp [hr, HybridCache.add_to_memory_cache]

/-- The disk fallback counts exactly one memory miss. -/
theorem df_memory_misses (st : HybridCache) (key : String) (now : Nat) :
    (HybridCache.disk_fallback st key now).1.metrics.memory_misses =
      st.metrics.memory_misses + 1 := by
  unfold HybridCache.disk_fallback
  by_cases hr : (Cache.get now st.disk key).1 = PyObj.none <;>
    simp [hr, HybridCache.add_to_memory_cache]

/-- A `None` disk result counts one disk miss. -/
theorem df_disk_misses_of_none (st : HybridCache) (key : String) (now : Nat)
    (hr : (Cache.get now st.disk key).1 = PyObj.none) :
    (HybridCache.disk_fallback st key now).1.metrics.disk_misses =
      st.metrics.disk_misses + 1 := by
  unfold HybridCache.disk_fallback
  simp [hr]

/-- A `None` disk result is never promoted: the memory table is untouched. -/
theorem df_memory_of_none (st : HybridCache) (key : String) (now : Nat)
    (hr : (Cache.get now st.disk key).1 = PyObj.none) :
    (HybridCache.disk_fallback st key now).1.memory_cache = st.memory_cache := by
  unfold HybridCache.disk_fallback
  simp [hr]

/-- Value returned by a fresh memory hit. -/
theorem hget_hit_val {st : HybridCache} {key : String} {now : Nat} {e : CacheEntry}
    (h : lookupA st.memory_cache key = some e) (hne : ¬ e.expires_at < now) :
    (HybridCache.get st key now).2 = e.value := by
  unfold HybridCache.get; rw [h]; simp [hne]

/-- An expired memory entry is popped from both tables, counted as a
miss, and the read falls through to the disk tier. -/
theorem hget_expired_eq {st : HybridCache} {key : String} {now : Nat} {e : CacheEntry}
    (h : lookupA st.memory_cache key = some e) (he : e.expires_at < now) :
    HybridCache.get st key now =
      HybridCache.disk_fallback
        { st with memory_cache := eraseA st.memory_cache key,
                  access_counts := eraseA st.access_counts key,
                  metrics := { st.metrics with
                    memory_misses := st.metrics.memory_misses + 1 } } key now := by
  unfold HybridCache.get; rw [h]; simp [he]

/-- A key absent from memory goes straight to the disk fallback. -/
theorem hget_absent_eq {st : HybridCache} {key : String} {now : Nat}
    (h : lookupA st.memory_cache key = Option.none) :
    HybridCache.get st key now = HybridCache.disk_fallback st key now := by
  unfold HybridCache.get; rw [h]

/-- Projection of `HybridCache.set`: the memory table after a set is the
result of `_add_to_memory_cache` on the pre-state. -/
theorem hset_memory (st : HybridCache) (key : String) (v : PyObj) (ttl : Option Nat)
    (now : Nat) (ok : Bool) :
    ((HybridCache.set st key v ttl now ok).1).memory_cache =
      (addMC st.ttl st.memory_max_size st.eviction_strategy st.memory_cache
        st.access_counts key v ttl now).1 := rfl

/-- Projection of `HybridCache.set` with a successful disk write. -/
theorem hset_disk_ok (st : HybridCache) (key : String) (v : PyObj) (ttl : Option Nat)
    (now : Nat) :
    ((HybridCache.set st key v ttl now true).1).disk =
      setAssoc st.disk key (DiskFile.good v (now + ttl.getD st.ttl) now) := rfl

/-! Claim theorems. -/

/-- C1: for every pre-state, key, value and ttl > 0, `HybridCache.set`
followed by an immediate `HybridCache.get` of the same key (same
instant, fault-free disk write) returns the value just stored — via the
fresh memory entry, or via the write-through disk copy if the insertion
itself evicted the new key. -/
theorem set_then_get_returns_value (st : HybridCache) (key : String) (v : PyObj)
    (ttl now : Nat) (_h : 0 < ttl) :
    ((HybridCache.set st key v (some ttl) now true).1.get key now).2 = v := by
  cases hl : lookupA ((HybridCache.set st key v (some ttl) now true).1).memory_cache key with
  | some e =>
      have he : e = mkEntry key v ttl now := by
        rw [hset_memory] at hl
        simpa using addMC_lookup hl
      have hne : ¬ e.expires_at < now := by
        rw [he]; simp [mkEntry]
      rw [hget_hit_val hl hne, he]
      rfl
  | none =>
      rw [hget_absent_eq hl, df_val, hset_disk_ok]
      rw [cget_fresh (lookupA_setAssoc_self st.disk key _) (by simp)]

/-- C1 witness: concrete set-then-get roundtrip with ttl 5. -/
theorem set_then_get_returns_value_witness :
    0 < 5 ∧
    ((HybridCache.set (HybridCache.mk0 100 4 EvictionStrategy.LRU) "k" (PyObj.nat 7)
        (some 5) 0 true).1.get "k" 0).2 = PyObj.nat 7 :=
  ⟨by decide,
   set_then_get_returns_value (HybridCache.mk0 100 4 EvictionStrategy.LRU) "k"
     (PyObj.nat 7) 5 0 (by decide)⟩

/-- C2: the code violates the memory-size invariant. Under LFU with
`memory_max_size = 1`, inserting the empty-string key and then a second
key leaves TWO entries in the memory tier: the eviction's Python guard
`if min_key:` is falsy for the empty-string key, so the insertion that
grew the table past the bound triggered ZERO evictions, not exactly one. -/
theorem lfu_empty_key_skips_eviction :
    ((((HybridCache.mk0 100 1 EvictionStrategy.LFU).set "" (PyObj.nat 0)
          Option.none 0 true).1.set "x" (PyObj.nat 0) Option.none 1 true).1).memory_cache.length = 2
    ∧ (HybridCache.mk0 100 1 EvictionStrategy.LFU).memory_max_size = 1 := by
  constructor <;> rfl

/-- C7: LRU scenario at capacity 3 — after `set a; set b; set c; get a`,
a `set d` evicts exactly `b`; keys `c`, `a`, `d` remain in memory (in
this access order). -/
theorem lru_scenario_evicts_b :
    (((((((HybridCache.mk0 100 3 EvictionStrategy.LRU).set "a" (PyObj.nat 1)
        Option.none 0 true).1.set "b" (PyObj.nat 2) Option.none 1 true).1.set "c"
        (PyObj.nat 3) Option.none 2 true).1.get "a" 3).1.set "d" (PyObj.nat 4)
        Option.none 4 true).1).memory_cache.map Prod.fst = ["c", "a", "d"] := by
  rfl

/-- C3 counterexample: (i) on a fresh cache, a `set` whose memory
insertion succeeds but whose disk write fails returns `False` — the
operation is reported as FAILED to the caller, not as successful:
`HybridCache.set` passes the disk tier's return value straight through
(the second conjunct shows the memory insertion did succeed); and
(ii) on `sampleLFUFull` (LFU at capacity, the resident key has access
count 5), the insertion's own eviction scan picks the just-inserted key
itself, so after the disk-write failure the memory copy is NOT present
and the value is NOT retrievable: the immediate `get` returns `None`
instead of the value 9 that was set. -/
theorem set_disk_failure_reports_failure :
    ((HybridCache.mk0 100 4 EvictionStrategy.LRU).set "k" (PyObj.nat 5)
        (some 10) 0 false).2 = false
    ∧ (lookupA ((HybridCache.mk0 100 4 EvictionStrategy.LRU).set "k" (PyObj.nat 5)
        (some 10) 0 false).1.memory_cache "k").isSome = true
    ∧ (sampleLFUFull.set "y" (PyObj.nat 9) (some 10) 0 false).2 = false
    ∧ lookupA (sampleLFUFull.set "y" (PyObj.nat 9) (some 10) 0 false).1.memory_cache "y"
        = Option.none
    ∧ ((sampleLFUFull.set "y" (PyObj.nat 9) (some 10) 0 false).1.get "y" 0).2
        = PyObj.none := by
  refine ⟨rfl, rfl, rfl, rfl, rfl⟩

/-- C3 amended: for every pre-state, a `set` whose disk write fails
returns the disk write's result `False` (the failure is reported to the
caller, not turned into a success); the memory insertion still happens,
and whenever the memory copy survives the insertion's own eviction —
it can be evicted immediately, e.g. under LFU when every resident key
has a higher access count — the copy remains present and retrievable:
an immediate `get` of the key returns the stored value. -/
theorem set_disk_failure_memory_copy_retrievable (st : HybridCache) (key : String)
    (v : PyObj) (ttl : Option Nat) (now : Nat) :
    (HybridCache.set st key v ttl now false).2 = false
    ∧ (lookupA ((HybridCache.set st key v ttl now false).1).memory_cache key ≠
          Option.none →
        ((HybridCache.set st key v ttl now false).1.get key now).2 = v) := by
  refine ⟨rfl, ?_⟩
  intro hne
  cases hl : lookupA ((HybridCache.set st key v ttl now false).1).memory_cache key with
  | none => exact absurd hl hne
  | some e =>
      have he : e = mkEntry key v (ttl.getD st.ttl) now := by
        rw [hset_memory] at hl
        exact addMC_lookup hl
      rw [hget_hit_val hl (by rw [he]; simp [mkEntry]), he]
      rfl

/-- C3 amended witness: concrete disk-failing set whose memory copy
survives, with the set reporting failure and the get retrieving it. -/
theorem set_disk_failure_memory_copy_retrievable_witness :
    ((HybridCache.mk0 100 4 EvictionStrategy.LRU).set "k" (PyObj.nat 5)
        (some 10) 0 false).2 = false
    ∧ (((HybridCache.mk0 100 4 EvictionStrategy.LRU).set "k" (PyObj.nat 5)
        (some 10) 0 false).1.get "k" 0).2 = PyObj.nat 5 :=
  ⟨(set_disk_failure_memory_copy_retrievable (HybridCache.mk0 100 4 EvictionStrategy.LRU)
      "k" (PyObj.nat 5) (some 10) 0).1,
   (set_disk_failure_memory_copy_retrievable (HybridCache.mk0 100 4 EvictionStrategy.LRU)
      "k" (PyObj.nat 5) (some 10) 0).2 (by decide)⟩

/-- C4: after a `set` with ttl, any `get` of that key at a time past the
expiry returns absent on both tiers, and that `get` deletes the expired
disk file (lazy expiry). -/
theorem get_after_expiry_absent_and_file_deleted (st : HybridCache) (key : String)
    (v : PyObj) (ttl now now2 : Nat) (h : now + ttl < now2) :
    ((HybridCache.set st key v (some ttl) now true).1.get key now2).2 = PyObj.none
    ∧ lookupA ((HybridCache.set st key v (some ttl) now true).1.get key now2).1.disk key =
        Option.none := by
  have hdisk : ((HybridCache.set st key v (some ttl) now true).1).disk =
      setAssoc st.disk key (DiskFile.good v (now + ttl) now) := rfl
  have hcget : ∀ d : List (String × DiskFile),
      d = ((HybridCache.set st key v (some ttl) now true).1).disk →
      Cache.get now2 d key = (PyObj.none, eraseA d key) := by
    intro d hd
    refine cget_expired (v := v) (c := now) ?_ h
    rw [hd, hdisk]; exact lookupA_setAssoc_self st.disk key _
  cases hl : lookupA ((HybridCache.set st key v (some ttl) now true).1).memory_cache key with
  | some e =>
      have he : e = mkEntry key v ttl now := by
        rw [hset_memory] at hl
        simpa using addMC_lookup hl
      have hex : e.expires_at < now2 := by rw [he]; simpa [mkEntry] using h
      rw [hget_expired_eq hl hex]
      constructor
      · rw [df_val, hcget _ rfl]
      · rw [df_disk, (hcget _ rfl : Cache.get now2 _ key = _)]
        exact lookupA_eraseA_self _ key
  | none =>
      rw [hget_absent_eq hl]
      constructor
      · rw [df_val, hcget _ rfl]
      · rw [df_disk, (hcget _ rfl : Cache.get now2 _ key = _)]
        exact lookupA_eraseA_self _ key

/-- C4 witness: set at time 0 with ttl 5, get at time 6. -/
theorem get_after_expiry_absent_and_file_deleted_witness :
    0 + 5 < 6
    ∧ ((HybridCache.set (HybridCache.mk0 100 4 EvictionStrategy.LRU) "k" (PyObj.nat 7)
        (some 5) 0 true).1.get "k" 6).2 = PyObj.none
    ∧ lookupA ((HybridCache.set (HybridCache.mk0 100 4 EvictionStrategy.LRU) "k"
        (PyObj.nat 7) (some 5) 0 true).1.get "k" 6).1.disk "k" = Option.none :=
  ⟨by decide,
   get_after_expiry_absent_and_file_deleted (HybridCache.mk0 100 4 EvictionStrategy.LRU)
     "k" (PyObj.nat 7) 5 0 6 (by decide)⟩

/-- C5 counterexample: two on-disk file states make the disk-tier read
RAISE to the caller instead of returning absent. A file whose bytes are
not valid UTF-8 raises `UnicodeDecodeError` (a `ValueError`, neither a
`json.JSONDecodeError` nor an `OSError`, so the handler misses it), and
a file holding valid JSON that is not an object raises `AttributeError`
at `cache_data.get("expires_at", 0)`. -/
theorem disk_get_unhandled_corruption_raises :
    Cache.get_outcome 0 FileState.badUtf8 = ReadOutcome.raised PyExn.unicodeDecodeError
    ∧ Cache.get_outcome 0 FileState.jsonNonDict = ReadOutcome.raised PyExn.attributeError
    ∧ Cache.get_outcome 0 FileState.badUtf8 ≠ ReadOutcome.returns PyObj.none
    ∧ Cache.get_outcome 0 FileState.jsonNonDict ≠ ReadOutcome.returns PyObj.none := by
  refine ⟨rfl, rfl, by decide, by decide⟩

/-- C5 amended: the disk-tier read returns absent (Python `None`) for a
missing file, an unreadable file (`OSError`, caught) and a file whose
JSON deserialization fails with `json.JSONDecodeError` (corrupt or
partially written JSON text, caught); but it does NOT cover every bad
file state: a file with invalid UTF-8 bytes raises `UnicodeDecodeError`
and a valid-JSON non-object file raises `AttributeError`, both escaping
`except (json.JSONDecodeError, OSError)` and propagating to the caller. -/
theorem disk_get_absent_only_for_handled_states (now : Nat) (f : FileState)
    (h : f = FileState.missing ∨ f = FileState.unreadable ∨ f = FileState.badJson) :
    Cache.get_outcome now f = ReadOutcome.returns PyObj.none
    ∧ Cache.get_outcome now FileState.badUtf8 =
        ReadOutcome.raised PyExn.unicodeDecodeError
    ∧ Cache.get_outcome now FileState.jsonNonDict =
        ReadOutcome.raised PyExn.attributeError := by
  refine ⟨?_, rfl, rfl⟩
  rcases h with h | h | h <;> rw [h] <;> rfl

/-- C5 amended witness: a caught-bad-JSON file at a concrete time. -/
theorem disk_get_absent_only_for_handled_states_witness :
    Cache.get_outcome 3 FileState.badJson = ReadOutcome.returns PyObj.none
    ∧ Cache.get_outcome 3 FileState.badUtf8 =
        ReadOutcome.raised PyExn.unicodeDecodeError
    ∧ Cache.get_outcome 3 FileState.jsonNonDict =
        ReadOutcome.raised PyExn.attributeError :=
  disk_get_absent_only_for_handled_states 3 FileState.badJson (Or.inr (Or.inr rfl))

/-- C6 counterexample: under LRU, a size-triggered eviction does NOT
remove the evicted key's LFU counter. With capacity 1, `set a; set b`
evicts `a` from the memory table, yet `a` still has access count 1 in
`_access_counts` afterwards (`popitem(last=False)` touches only the
ordered table). -/
theorem lru_eviction_keeps_access_count :
    lookupA ((((HybridCache.mk0 100 1 EvictionStrategy.LRU).set "a" (PyObj.nat 1)
        Option.none 0 true).1.set "b" (PyObj.nat 2) Option.none 1 true).1).memory_cache "a"
      = Option.none
    ∧ lookupA ((((HybridCache.mk0 100 1 EvictionStrategy.LRU).set "a" (PyObj.nat 1)
        Option.none 0 true).1.set "b" (PyObj.nat 2) Option.none 1 true).1).access_counts "a"
      = some 1 := by
  constructor <;> rfl

/-- C6 amended: for every cache state and time, a size-triggered
eviction leaves every disk-tier file unchanged, and any key absent from
the memory tier whose disk entry is still fresh is returned by a
subsequent `get` via the disk tier (with re-promotion) until its own
TTL expires. Removal behavior per strategy: under LFU, and under TTL
when the scan finds a victim with positive remaining TTL, the chosen
(non-empty-string) entry is removed from both the memory tier and its
LFU counter, as originally claimed; but under LRU, and under the TTL
fallback, only the head entry of the memory table is removed and its
LFU counter is left behind; and under LFU a chosen empty-string victim
is not removed at all (the truthiness defect exhibited for C2). -/
theorem eviction_frame_properties (st : HybridCache) (now now2 : Nat) :
    (st.evict_from_memory_cache now).disk = st.disk
    ∧ (st.eviction_strategy = EvictionStrategy.LRU →
        (st.evict_from_memory_cache now).memory_cache = st.memory_cache.tail
        ∧ (st.evict_from_memory_cache now).access_counts = st.access_counts)
    ∧ (∀ k : String, st.eviction_strategy = EvictionStrategy.LFU →
        lfuPick st.access_counts st.memory_cache = some k → k ≠ "" →
        st.memory_cache ≠ [] →
        (st.evict_from_memory_cache now).memory_cache = eraseA st.memory_cache k
        ∧ (st.evict_from_memory_cache now).access_counts = eraseA st.access_counts k)
    ∧ (st.eviction_strategy = EvictionStrategy.LFU →
        (lfuPick st.access_counts st.memory_cache = some ""
          ∨ lfuPick st.access_counts st.memory_cache = Option.none) →
        (st.evict_from_memory_cache now).memory_cache = st.memory_cache
        ∧ (st.evict_from_memory_cache now).access_counts = st.access_counts)
    ∧ (∀ k : String, st.eviction_strategy = EvictionStrategy.TTL →
        ttlPick st.memory_cache now = some k → k ≠ "" →
        st.memory_cache ≠ [] →
        (st.evict_from_memory_cache now).memory_cache = eraseA st.memory_cache k
        ∧ (st.evict_from_memory_cache now).access_counts = eraseA st.access_counts k)
    ∧ (st.eviction_strategy = EvictionStrategy.TTL →
        (ttlPick st.memory_cache now = Option.none
          ∨ ttlPick st.memory_cache now = some "") →
        (st.evict_from_memory_cache now).memory_cache = st.memory_cache.tail
        ∧ (st.evict_from_memory_cache now).access_counts = st.access_counts)
    ∧ (∀ (key : String) (v : PyObj) (e c : Nat),
        lookupA (st.evict_from_memory_cache now).memory_cache key = Option.none →
        lookupA st.disk key = some (DiskFile.good v e c) →
        ¬ e < now2 →
        ((st.evict_from_memory_cache now).get key now2).2 = v) := by
  refine ⟨rfl, ?_, ?_, ?_, ?_, ?_, ?_⟩
  · intro hs
    constructor
    · show (evictMC st.eviction_strategy st.memory_cache st.access_counts now).1 = _
      rw [hs, evictMC_lru]
    · show (evictMC st.eviction_strategy st.memory_cache st.access_counts now).2 = _
      rw [hs, evictMC_lru]
  · intro k hs h1 h2 h3
    constructor
    · show (evictMC st.eviction_strategy st.memory_cache st.access_counts now).1 = _
      rw [hs, evictMC_lfu_pick now h1 h2 h3]
    · show (evictMC st.eviction_strategy st.memory_cache st.access_counts now).2 = _
      rw [hs, evictMC_lfu_pick now h1 h2 h3]
  · intro hs h1
    constructor
    · show (evictMC st.eviction_strategy st.memory_cache st.access_counts now).1 = _
      rw [hs, evictMC_lfu_skip now h1]
    · show (evictMC st.eviction_strategy st.memory_cache st.access_counts now).2 = _
      rw [hs, evictMC_lfu_skip now h1]
  · intro k hs h1 h2 h3
    constructor
    · show (evictMC st.eviction_strategy st.memory_cache st.access_counts now).1 = _
      rw [hs, evictMC_ttl_pick h1 h2 h3]
    · show (evictMC st.eviction_strategy st.memory_cache st.access_counts now).2 = _
      rw [hs, evictMC_ttl_pick h1 h2 h3]
  · intro hs h1
    constructor
    · show (evictMC st.eviction_strategy st.memory_cache st.access_counts now).1 = _
      rw [hs, evictMC_ttl_fallback h1]
    · show (evictMC st.eviction_strategy st.memory_cache st.access_counts now).2 = _
      rw [hs, evictMC_ttl_fallback h1]
  · intro key v e c hlook hdiskl hne
    rw [hget_absent_eq hlook, df_val,
      show (st.evict_from_memory_cache now).disk = st.disk from rfl,
      cget_fresh hdiskl hne]

/-- C6 amended witness: evicting from `sampleLRU` drops the head entry,
keeps the counters, leaves the disk tier unchanged, and the evicted key
is still served from disk. -/
theorem eviction_frame_properties_witness :
    (sampleLRU.evict_from_memory_cache 0).disk = sampleLRU.disk
    ∧ (sampleLRU.evict_from_memory_cache 0).memory_cache = sampleLRU.memory_cache.tail
    ∧ (sampleLRU.evict_from_memory_cache 0).access_counts = sampleLRU.access_counts
    ∧ ((sampleLRU.evict_from_memory_cache 0).get "a" 5).2 = PyObj.nat 7 := by
  obtain ⟨h1, h2, h3, h4, h5, h6, h7⟩ := eviction_frame_properties sampleLRU 0 5
  exact ⟨h1, (h2 rfl).1, (h2 rfl).2,
    h7 "a" (PyObj.nat 7) 50 0 (by decide) (by decide) (by decide)⟩

/-- C8: evaluating `_prune_cache_if_needed` at a directory of files
a(atime 1, size 30), b(atime 2, size 30), c(atime 3, size 60) with
max_size 100 (total 120 > 100): only the single oldest file `a` is
deleted — the loop calls `file.stat()` on the just-unlinked path, the
raised `FileNotFoundError` is swallowed by the method's outer handler,
and pruning stops with accounted size 90 ≥ 0.8 × 100, contrary to the
claimed delete-until-below-80 behavior. The second conjunct checks the
no-deletion case at or below max_size, which the code does satisfy. -/
theorem prune_deletes_only_oldest_file :
    prune_cache_if_needed 100
        [⟨"a", 1, 30⟩, ⟨"b", 2, 30⟩, ⟨"c", 3, 60⟩] = [⟨"b", 2, 30⟩, ⟨"c", 3, 60⟩]
    ∧ prune_cache_if_needed 100 [⟨"a", 1, 30⟩, ⟨"b", 2, 30⟩] =
        [⟨"a", 1, 30⟩, ⟨"b", 2, 30⟩] := by
  constructor <;> rfl

/-- C9: a `get` that finds a present-but-expired memory entry increments
`memory_misses` by exactly 2 — once in the expired branch and once again
on the fall-through to the disk lookup. -/
theorem expired_memory_entry_double_miss (st : HybridCache) (key : String) (now : Nat)
    (e : CacheEntry) (h1 : lookupA st.memory_cache key = some e)
    (h2 : e.expires_at < now) :
    (HybridCache.get st key now).1.metrics.memory_misses =
      st.metrics.memory_misses + 2 := by
  rw [hget_expired_eq h1 h2, df_memory_misses]

/-- C9 witness: `sampleExpired` read at time 5. -/
theorem expired_memory_entry_double_miss_witness :
    lookupA sampleExpired.memory_cache "k" = some (mkEntry "k" (PyObj.nat 7) 1 0)
    ∧ (mkEntry "k" (PyObj.nat 7) 1 0).expires_at < 5
    ∧ (sampleExpired.get "k" 5).1.metrics.memory_misses =
        sampleExpired.metrics.memory_misses + 2 :=
  ⟨rfl, by decide,
   expired_memory_entry_double_miss sampleExpired "k" 5 (mkEntry "k" (PyObj.nat 7) 1 0)
     rfl (by decide)⟩

/-- C10: a stored Python `None` is indistinguishable from absence at the
`get` interface. A disk entry whose value is `None` is treated as a disk
miss: the `get` returns `None`, increments `disk_misses`, and never
promotes the entry into memory. A fresh memory entry whose value is
`None` produces a `get` result of `None`, just as a miss would. -/
theorem cached_none_indistinguishable_from_absent :
    (∀ (st : HybridCache) (key : String) (now e c : Nat),
      lookupA st.memory_cache key = Option.none →
      lookupA st.disk key = some (DiskFile.good PyObj.none e c) →
      ¬ e < now →
      (HybridCache.get st key now).2 = PyObj.none
      ∧ (HybridCache.get st key now).1.metrics.disk_misses = st.metrics.disk_misses + 1
      ∧ (HybridCache.get st key now).1.memory_cache = st.memory_cache)
    ∧ (∀ (st : HybridCache) (key : String) (now : Nat) (e : CacheEntry),
      lookupA st.memory_cache key = some e → e.value = PyObj.none →
      ¬ e.expires_at < now →
      (HybridCache.get st key now).2 = PyObj.none) := by
  constructor
  · intro st key now e c hm hd hne
    have hr : (Cache.get now st.disk key).1 = PyObj.none := by
      rw [cget_fresh hd hne]
    rw [hget_absent_eq hm]
    exact ⟨by rw [df_val, hr], df_disk_misses_of_none st key now hr,
      df_memory_of_none st key now hr⟩
  · intro st key now e hm hv hne
    rw [hget_hit_val hm hne, hv]

/-- C10 witness: concrete reads of a cached `None` on each tier. -/
theorem cached_none_indistinguishable_witness :
    (sampleDiskNone.get "k" 5).2 = PyObj.none
    ∧ (sampleDiskNone.get "k" 5).1.metrics.disk_misses =
        sampleDiskNone.metrics.disk_misses + 1
    ∧ (sampleDiskNone.get "k" 5).1.memory_cache = sampleDiskNone.memory_cache
    ∧ (sampleMemNone.get "k" 5).2 = PyObj.none := by
  have ha := cached_none_indistinguishable_from_absent.1 sampleDiskNone "k" 5 50 0
    rfl rfl (by decide)
  have hb := cached_none_indistinguishable_from_absent.2 sampleMemNone "k" 5
    (mkEntry "k" PyObj.none 50 0) rfl rfl (by decide)
  exact ⟨ha.1, ha.2.1, ha.2.2, hb⟩
